import Mathlib

/-!
Shallow embedding of the upload-and-persist pipeline of the
video-upload-service repository (src/app/).

The embedding follows the Python source:
  - `s3_service.py`  : startup backend selection and `upload_to_s3`;
  - `main.py`        : the `POST /videos/` and `GET /videos/{video_id}` handlers;
  - `crud.py`        : `get_video` (query by id);
  - `models.py`      : the `Video` ORM row (columns id, title, description,
                       upload_date, duration, uploader_id);
  - `schemas.py`     : `VideoCreate` and `VideoResponse` pydantic models;
  - `routes.py`      : the duplicate `POST /upload` handler.

Python dynamic semantics that decide the control flow are modelled
explicitly: attribute access on an object that lacks the attribute raises
`AttributeError` (`main.py` wraps the uploaded content in `BytesIO`, which has
neither `.filename` nor `.file`, before handing it to `upload_to_s3`), and a
pydantic `str` field rejects a non-string value.  Exceptions are modelled with
`Except`.
-/

/-- Raw byte content of an uploaded file (each entry one byte value). -/
abbrev PyBytes := List Nat

/-- The Python exceptions that can be raised along the modelled paths. -/
inductive PyExc where
  /-- `AttributeError`: object of type `obj` has no attribute `attr`. -/
  | attributeError (obj attr : String)
  /-- pydantic `ValidationError` (e.g. a non-`str` value for a `str` field). -/
  | validationError (msg : String)
  deriving DecidableEq, Repr

/-- `str(e)` for a modelled exception: the text Python would interpolate. -/
def PyExc.text : PyExc → String
  | .attributeError obj attr =>
      obj ++ " object has no attribute " ++ attr
  | .validationError msg => msg

/-- The first positional argument of `upload_to_s3`.  `main.py` line 33 passes
`BytesIO(file_content)`; an `io.BytesIO` object has no `filename` and no
`file` attribute.  A `named` value models an object that does carry both
attributes (e.g. a FastAPI `UploadFile`), which is what `upload_to_s3`
evidently expects. -/
inductive FileObj where
  | bytesObj (content : PyBytes)
  | named (filename : String) (content : PyBytes)
  deriving DecidableEq, Repr

/-- Attribute access `file.filename` (raises `AttributeError` on `BytesIO`). -/
def FileObj.filenameAttr : FileObj → Except PyExc String
  | .bytesObj _ => .error (.attributeError "BytesIO" "filename")
  | .named fn _ => .ok fn

/-- Attribute access `file.file` (raises `AttributeError` on `BytesIO`);
for a `named` object it yields the readable stream, modelled as its bytes. -/
def FileObj.fileAttr : FileObj → Except PyExc PyBytes
  | .bytesObj _ => .error (.attributeError "BytesIO" "file")
  | .named _ c => .ok c

/-- Whether a path string starts with the separator `/`. -/
def startsWithSlash (s : String) : Bool :=
  match s.data with
  | [] => false
  | c :: _ => c = '/'

/-- Whether a path string ends with the separator `/`. -/
def endsWithSlash (s : String) : Bool :=
  match s.data.getLast? with
  | some c => c = '/'
  | none => false

/-- `os.path.join(a, b)` for a single join, POSIX semantics: an absolute `b`
discards `a`; otherwise a separator is inserted unless `a` is empty or already
ends with one. -/
def osPathJoin (a b : String) : String :=
  if startsWithSlash b then b
  else if a = "" ∨ endsWithSlash a then a ++ b
  else a ++ "/" ++ b

/-- The local filesystem: an association list from path to content; a write
prepends, a read takes the first (most recent) entry. -/
abbrev FileSys := List (String × PyBytes)

/-- Writing `content` at `path`. -/
def fsWrite (fs : FileSys) (path : String) (content : PyBytes) : FileSys :=
  (path, content) :: fs

/-- Reading the current content at `path`. -/
def fsRead (fs : FileSys) (path : String) : Option PyBytes :=
  fs.lookup path

/-- `schemas.VideoCreate` (schemas.py lines 4-7). -/
structure VideoCreate where
  filename : String
  file_size : Nat
  upload_path : String
  deriving DecidableEq, Repr

/-- The dict returned by `upload_to_s3`
(`{"message": ..., "metadata": metadata.model_dump_json()}`); the metadata is
kept as the `VideoCreate` value it serialises. -/
structure UploadDict where
  message : String
  metadata : VideoCreate
  deriving DecidableEq, Repr

/-- Attribute access `upload.upload_path` on the dict returned by
`upload_to_s3` (main.py line 36): a Python dict does not expose its items as
attributes, so this always raises `AttributeError`. -/
def UploadDict.getAttrUploadPath (_ : UploadDict) : Except PyExc String :=
  .error (.attributeError "dict" "upload_path")

/-- The module-level configuration `upload_to_s3` reads: the `s3_enabled`
flag computed at startup, `LOCAL_STORAGE_DIR`, and `S3_BUCKET_NAME`. -/
structure S3Config where
  s3Enabled : Bool
  localDir : String
  bucket : String
  deriving DecidableEq, Repr

/-- `s3_service.upload_to_s3` (s3_service.py lines 31-48).

Local branch (`not s3_enabled`, lines 33-39): the destination is
`os.path.join(LOCAL_STORAGE_DIR, file.filename)` — the `file_key` argument is
not used — the stream `file.file` is copied there, and the returned metadata
records the written size and path.

Remote branch (lines 41-45): the f-string passed to `logger.info`
evaluates `file.filename`; `upload_fileobj` is modelled as succeeding; the
subsequent `VideoCreate(filename=file, ...)` passes the file object itself
for the `str` field `filename`, which pydantic rejects. -/
def upload_to_s3 (cfg : S3Config) (fs : FileSys) (file : FileObj)
    (file_key : String) : Except PyExc (FileSys × UploadDict) :=
  if cfg.s3Enabled = false then do
    let fn ← file.filenameAttr
    let file_location := osPathJoin cfg.localDir fn
    let content ← file.fileAttr
    let fs2 := fsWrite fs file_location content
    let metadata : VideoCreate :=
      { filename := fn, file_size := content.length, upload_path := file_location }
    .ok (fs2, { message := "File uploaded locally", metadata := metadata })
  else do
    let _fn ← file.filenameAttr
    let _ := file_key
    .error (.validationError "filename: Input should be a valid string")

deriving instance DecidableEq for Except

/-- A request to `POST /videos/`: FastAPI hands the handler an `UploadFile`,
which carries `.filename` and whose `.read()` yields the content bytes. -/
structure UploadFileIn where
  filename : String
  content : PyBytes
  deriving DecidableEq, Repr

/-- The body of an HTTP response produced by the modelled handlers: either a
bare JSON object with a `message` key (the `JSONResponse` paths and framework
error pages), or a serialised `schemas.VideoResponse`. -/
inductive RespBody where
  | messageObj (message : String)
  | videoJson (id : Nat) (filename : String) (file_size : Nat)
      (upload_time : Nat) (s3_url : String)
  deriving DecidableEq, Repr

/-- Whether a response body is a serialised video record (a success body of
the upload / retrieval endpoints). -/
def RespBody.isVideoJson : RespBody → Bool
  | .videoJson _ _ _ _ _ => true
  | .messageObj _ => false

/-- An HTTP response: status code and body. -/
structure HttpResp where
  status : Nat
  body : RespBody
  deriving DecidableEq, Repr

/-- A row of the `videos` table as declared by `models.Video`
(models.py lines 14-22): its columns are `id`, `title`, `description`,
`upload_date`, `duration`, `uploader_id` — it has none of the fields that
`schemas.VideoResponse` requires besides `id`. -/
structure VideoRow where
  id : Nat
  title : String
  description : Option String
  upload_date : Nat
  duration : Option Nat
  uploader_id : Nat
  deriving DecidableEq, Repr

/-- `getattr` on a `models.Video` row for string-valued attributes. -/
def VideoRow.attrStr (v : VideoRow) : String → Option String
  | "title" => some v.title
  | "description" => v.description
  | _ => none

/-- `getattr` on a `models.Video` row for integer-valued attributes. -/
def VideoRow.attrNat (v : VideoRow) : String → Option Nat
  | "id" => some v.id
  | "upload_date" => some v.upload_date
  | "duration" => v.duration
  | "uploader_id" => some v.uploader_id
  | _ => none

/-- `crud.get_video` (crud.py lines 15-16): query the `videos` table for the
first row with the given id, `None` if there is none. -/
def crud_get_video (db : List VideoRow) (video_id : Nat) : Option VideoRow :=
  db.find? (fun v => v.id = video_id)

/-- FastAPI validating a returned ORM row against
`response_model=schemas.VideoResponse` with `from_attributes` (schemas.py
lines 9-17): each of `id`, `filename`, `file_size`, `upload_time`, `s3_url`
must be readable off the row; `models.Video` provides only `id`, so this
fails for every row. -/
def serializeVideoResponse (v : VideoRow) : Except PyExc RespBody :=
  match v.attrNat "id", v.attrStr "filename", v.attrNat "file_size",
      v.attrNat "upload_time", v.attrStr "s3_url" with
  | some i, some fn, some fs, some ut, some u => .ok (.videoJson i fn fs ut u)
  | _, _, _, _, _ =>
      .error (.validationError "ResponseValidationError: missing attributes")

/-- `main.upload_video` (main.py lines 22-40).  Inside the `try` block:
read the content, take its length, set `file_key = f-string of file.filename`,
call `upload_to_s3` with `BytesIO(file_content)` as the file argument, then
build the `VideoCreate` for `crud.create_video` — whose keyword argument
`upload.upload_path` is an attribute access on the returned dict.  Any
exception is caught by the blanket `except` and becomes a 400 `JSONResponse`
whose message is `str(e)`.  (The subsequent `crud.create_video(db, video)`
call would itself raise `TypeError` — crud.py line 4 requires a third
`s3_url` argument — and `models.Video` accepts none of the keywords
`create_video` passes, but the dict attribute access raises first.)
Returns (database rows, filesystem, response). -/
def main_upload_video (cfg : S3Config) (db : List VideoRow) (fs : FileSys)
    (file : UploadFileIn) : List VideoRow × FileSys × HttpResp :=
  let file_content := file.content
  let _file_size := file_content.length
  let file_key := file.filename
  match upload_to_s3 cfg fs (FileObj.bytesObj file_content) file_key with
  | .error e => (db, fs, ⟨400, .messageObj e.text⟩)
  | .ok (fs2, upload) =>
      match upload.getAttrUploadPath with
      | .error e => (db, fs2, ⟨400, .messageObj e.text⟩)
      | .ok _upload_path =>
          -- unreachable: `getAttrUploadPath` always raises; were it reached,
          -- `crud.create_video(db, video)` would raise `TypeError` next.
          (db, fs2, ⟨400, .messageObj "unreachable"⟩)

/-- `main.get_video` (main.py lines 42-47): `None` from `crud.get_video`
becomes a 404 `JSONResponse`; a found row is returned and validated against
`response_model=VideoResponse`, and a validation failure surfaces as the
framework 500 page. -/
def main_get_video (db : List VideoRow) (video_id : Nat) : HttpResp :=
  match crud_get_video db video_id with
  | none => ⟨404, .messageObj "Video not found"⟩
  | some v =>
      match serializeVideoResponse v with
      | .ok body => ⟨200, body⟩
      | .error _ => ⟨500, .messageObj "Internal Server Error"⟩

/-- A response of the duplicate `routes.upload_video` handler (routes.py
lines 26-51): either the success dict or an `HTTPException`. -/
inductive RouteResp where
  | okMsg (success : Bool) (message : String) (video_id : Nat)
  | httpError (status : Nat) (detail : String)
  deriving DecidableEq, Repr

/-- `routes.upload_video` (routes.py lines 26-51).  Everything happens inside
one `try`: an unknown api key raises `HTTPException(401, "Invalid API key")`,
but that is caught by the blanket `except Exception as e`, which rolls back
and re-raises `HTTPException(500, detail=str(e))` — `str` of an
`HTTPException` is `"status: detail"`.  A failure of `db.commit` (modelled by
`commitResult`, carrying the raw driver exception text) is caught the same
way, so the driver text becomes the 500 detail verbatim.  On success the
handler returns the success dict with the new row id. -/
def routes_upload_video (userForKey : Option Nat)
    (commitResult : Except String Nat) : RouteResp :=
  match userForKey with
  | none => .httpError 500 ("401: " ++ "Invalid API key")
  | some _uid =>
      match commitResult with
      | .error msg => .httpError 500 msg
      | .ok vid => .okMsg true "Video uploaded successfully" vid

/-- A filesystem operation, for stating which write pattern the local branch
uses (direct write vs. temp-file/fsync/rename). -/
inductive FsOp where
  | openWrite (path : String)
  | copyAll (path : String) (content : PyBytes)
  | fsyncFile (path : String)
  | renameFile (src dst : String)
  | removeFile (path : String)
  deriving DecidableEq, Repr

/-- Whether an operation is a rename. -/
def FsOp.isRenameOp : FsOp → Bool
  | .renameFile _ _ => true
  | _ => false

/-- The path an operation touches (the destination, for a rename). -/
def FsOp.target : FsOp → String
  | .openWrite p => p
  | .copyAll p _ => p
  | .fsyncFile p => p
  | .renameFile _ d => d
  | .removeFile p => p

/-- The sequence of filesystem operations the local branch of `upload_to_s3`
performs (s3_service.py lines 35-38): `open(file_location, "wb")` on the final
destination, then `shutil.copyfileobj` into it.  Nothing else: no temporary
file, no fsync, no rename, no cleanup handler. -/
def localPutOps (localDir filename : String) (content : PyBytes) : List FsOp :=
  [FsOp.openWrite (osPathJoin localDir filename),
   FsOp.copyAll (osPathJoin localDir filename) content]

/-- One step of POSIX path normalisation over segments (as `List Char`):
empty and `.` segments vanish, `..` pops the previous real segment, other
segments are pushed.  The accumulator is kept reversed. -/
def normStep (acc : List (List Char)) (seg : List Char) : List (List Char) :=
  if seg = [] ∨ seg = ['.'] then acc
  else if seg = ['.', '.'] then
    match acc with
    | [] => [['.', '.']]
    | a :: rest => if a = ['.', '.'] then seg :: a :: rest else rest
  else seg :: acc

/-- Splitting a character list on `/`. -/
def splitSlash : List Char → List Char → List (List Char)
  | [], acc => [acc.reverse]
  | c :: rest, acc =>
      if c = '/' then acc.reverse :: splitSlash rest []
      else splitSlash rest (c :: acc)

/-- The normalised segments of a path. -/
def normSegsOf (p : String) : List (List Char) :=
  ((splitSlash p.data []).foldl normStep []).reverse

/-- Whether `dest`, after normalisation, lies outside the directory subtree
rooted at `root`. -/
def pathEscapesRoot (root dest : String) : Bool :=
  if (startsWithSlash dest) ≠ (startsWithSlash root) then true
  else !((normSegsOf root).isPrefixOf (normSegsOf dest))

/-- Python truthiness of `os.getenv`: `None` (variable unset) and the empty
string are falsy. -/
def truthyOpt : Option String → Bool
  | none => false
  | some s => s ≠ ""

/-- An exception raised by the startup probe
(`boto3.client` / `head_bucket`, s3_service.py lines 22-25).  The `except`
clause on line 27 names exactly `NoCredentialsError`,
`EndpointConnectionError` and `InvalidRegionError`; `head_bucket` reports a
missing or forbidden bucket by raising `botocore.exceptions.ClientError`,
which is not in that tuple, and any other exception is likewise uncaught. -/
inductive InitExc where
  | noCredentialsError
  | endpointConnectionError
  | invalidRegionError
  | clientError (msg : String)
  | otherError (msg : String)
  deriving DecidableEq, Repr

/-- Whether the `except (NoCredentialsError, EndpointConnectionError,
InvalidRegionError)` clause catches the exception. -/
def caughtAtInit : InitExc → Bool
  | .noCredentialsError => true
  | .endpointConnectionError => true
  | .invalidRegionError => true
  | .clientError _ => false
  | .otherError _ => false

/-- The environment the `s3_service` module reads at import time. -/
structure StartupEnv where
  s3AccessKeyId : Option String
  s3SecretAccessKey : Option String
  s3BucketName : Option String
  localStorageDir : String
  /-- Outcome of `boto3.client` + `head_bucket` against the bucket:
  `none` means the probe succeeds, `some e` that it raises `e`. -/
  probeResult : Option InitExc
  deriving DecidableEq, Repr

/-- `if S3_ACCESS_KEY_ID and S3_SECRET_ACCESS_KEY and S3_BUCKET_NAME`
(s3_service.py line 21). -/
def credsTruthy (env : StartupEnv) : Bool :=
  truthyOpt env.s3AccessKeyId && truthyOpt env.s3SecretAccessKey &&
    truthyOpt env.s3BucketName

/-- The module-level startup of `s3_service` (s3_service.py lines 14-29):
`Path(LOCAL_STORAGE_DIR).mkdir(parents=True, exist_ok=True)` runs first and
unconditionally; then, only if all three credentials are truthy, the client
is built and the bucket probed, setting `s3_enabled = True` on success;
exceptions in the caught tuple set `s3_enabled = False`, all others
propagate out of the module import.  Returns the directories after `mkdir`
and either the resulting `s3_enabled` flag or the uncaught exception. -/
def s3ServiceInit (env : StartupEnv) (dirs0 : List String) :
    List String × Except InitExc Bool :=
  (if env.localStorageDir ∈ dirs0 then dirs0 else env.localStorageDir :: dirs0,
    if credsTruthy env then
      match env.probeResult with
      | none => .ok true
      | some e => if caughtAtInit e then .ok false else .error e
    else .ok false)

/-- The upload input validity the spec asks for: a non-empty filename. -/
def validUploadInput (file : UploadFileIn) : Bool :=
  file.filename ≠ ""

/-- `upload_to_s3` applied to a `BytesIO` argument — which is what
`main.upload_video` passes — raises `AttributeError` on `file.filename` in
both the local and the remote branch, before anything is written. -/
theorem upload_to_s3_bytesObj (cfg : S3Config) (fs : FileSys) (c : PyBytes)
    (k : String) :
    upload_to_s3 cfg fs (FileObj.bytesObj c) k
      = .error (.attributeError "BytesIO" "filename") := by
  unfold upload_to_s3
  cases hb : cfg.s3Enabled <;> simp [FileObj.filenameAttr] <;> rfl

/-- C1: if the storage put step (`upload_to_s3`, as invoked by
`main.upload_video`) fails, then no metadata record is created — the store
after the request equals the store before — and the failure is reported to
the caller as an error response carrying the exception. -/
theorem upload_put_failure_leaves_store_unchanged
    (cfg : S3Config) (db : List VideoRow) (fs : FileSys) (file : UploadFileIn)
    (e : PyExc)
    (h : upload_to_s3 cfg fs (FileObj.bytesObj file.content) file.filename
      = .error e) :
    (main_upload_video cfg db fs file).1 = db ∧
      (main_upload_video cfg db fs file).2.2.status = 400 ∧
      (main_upload_video cfg db fs file).2.2.body = .messageObj e.text := by
  simp [main_upload_video, h]

/-- Witness for C1 at a concrete input. -/
theorem upload_put_failure_leaves_store_unchanged_witness :
    upload_to_s3 ⟨false, "./uploads", "b"⟩ []
        (FileObj.bytesObj (UploadFileIn.mk "a.mp4" [1,2]).content)
        (UploadFileIn.mk "a.mp4" [1,2]).filename
      = .error (.attributeError "BytesIO" "filename") ∧
    ((main_upload_video ⟨false, "./uploads", "b"⟩ [] [] ⟨"a.mp4", [1,2]⟩).1 = [] ∧
      (main_upload_video ⟨false, "./uploads", "b"⟩ [] [] ⟨"a.mp4", [1,2]⟩).2.2.status = 400 ∧
      (main_upload_video ⟨false, "./uploads", "b"⟩ [] [] ⟨"a.mp4", [1,2]⟩).2.2.body
        = .messageObj (PyExc.attributeError "BytesIO" "filename").text) :=
  ⟨by decide,
    upload_put_failure_leaves_store_unchanged ⟨false, "./uploads", "b"⟩ [] []
      ⟨"a.mp4", [1,2]⟩ (.attributeError "BytesIO" "filename") (by decide)⟩

/-- C2: the upload handler can never produce a success response at all — the
`BytesIO` value handed to `upload_to_s3` lacks the `filename` attribute the
function reads, so every upload request fails before a record is returned
(and the remote branch would in any case record `file_size=0`, not the
transferred byte count). -/
theorem upload_never_returns_success
    (cfg : S3Config) (db : List VideoRow) (fs : FileSys) (file : UploadFileIn) :
    (main_upload_video cfg db fs file).2.2.body.isVideoJson = false ∧
      (main_upload_video cfg db fs file).1 = db := by
  simp [main_upload_video, upload_to_s3_bytesObj, RespBody.isVideoJson]

/-- C3 (counterexample): with all credentials present and the reachability
probe failing with `botocore.exceptions.ClientError` (what `head_bucket`
raises for a missing or forbidden bucket), backend selection does not
complete — the exception is not in the `except` tuple and propagates. -/
theorem s3init_uncaught_probe_exception_raises :
    (s3ServiceInit
        ⟨some "AKIA", some "secret", some "bucket", "./uploads",
          some (InitExc.clientError "HeadBucket 404 NotFound")⟩ []).2
      = .error (InitExc.clientError "HeadBucket 404 NotFound") := by
  decide

/-- C3 (amended): backend selection completes without raising, with s3
disabled, whenever the credentials are not all present, or the probe fails
with one of the three caught exception classes (`NoCredentialsError`,
`EndpointConnectionError`, `InvalidRegionError`); the local storage
directory is created unconditionally beforehand. -/
theorem s3init_fallback_on_absent_or_caught
    (env : StartupEnv) (dirs0 : List String)
    (h : credsTruthy env = false ∨
        (∃ e, env.probeResult = some e ∧ caughtAtInit e = true)) :
    (s3ServiceInit env dirs0).2 = .ok false ∧
      env.localStorageDir ∈ (s3ServiceInit env dirs0).1 := by
  constructor
  · rcases h with hc | ⟨e, hp, hcaught⟩
    · simp [s3ServiceInit, hc]
    · cases hct : credsTruthy env
      · simp [s3ServiceInit, hct]
      · simp [s3ServiceInit, hct, hp, hcaught]
  · show env.localStorageDir ∈
      (if env.localStorageDir ∈ dirs0 then dirs0 else env.localStorageDir :: dirs0)
    split
    · assumption
    · exact List.mem_cons_self _ _

/-- Witness for C3 (amended) at a concrete input: all credentials absent. -/
theorem s3init_fallback_witness :
    (credsTruthy ⟨none, none, none, "./uploads", none⟩ = false ∨
        (∃ e, (StartupEnv.mk none none none "./uploads" none).probeResult = some e ∧
          caughtAtInit e = true)) ∧
      ((s3ServiceInit ⟨none, none, none, "./uploads", none⟩ []).2 = .ok false ∧
        (StartupEnv.mk none none none "./uploads" none).localStorageDir
          ∈ (s3ServiceInit ⟨none, none, none, "./uploads", none⟩ []).1) :=
  ⟨Or.inl (by decide),
    s3init_fallback_on_absent_or_caught ⟨none, none, none, "./uploads", none⟩ []
      (Or.inl (by decide))⟩

/-- C4: the local-disk put does not sanitise the name at all: for the
traversal name `../etc/passwd` the write happens at
`./uploads/../etc/passwd`, which normalises to a path outside the root, and
an absolute name discards the root entirely in `os.path.join`. -/
theorem local_put_traversal_escapes_root :
    upload_to_s3 ⟨false, "./uploads", "b"⟩ []
        (FileObj.named "../etc/passwd" [65]) "../etc/passwd"
      = .ok ([("./uploads/../etc/passwd", [65])],
          ⟨"File uploaded locally", ⟨"../etc/passwd", 1, "./uploads/../etc/passwd"⟩⟩) ∧
      pathEscapesRoot "./uploads" "./uploads/../etc/passwd" = true ∧
      osPathJoin "./uploads" "/etc/passwd" = "/etc/passwd" ∧
      pathEscapesRoot "./uploads" "/etc/passwd" = true := by
  decide

/-- C5 (counterexample): a perfectly valid upload (non-empty filename) is
answered with status 400 — so 400 is not reserved for invalid client input,
and the storage-layer failure that actually occurred did not yield 500 (nor
does any success yield 201). -/
theorem upload_valid_input_gets_400 :
    validUploadInput ⟨"movie.mp4", [7, 7]⟩ = true ∧
      (main_upload_video ⟨false, "./uploads", "b"⟩ [] [] ⟨"movie.mp4", [7, 7]⟩).2.2.status
        = 400 ∧
      (main_upload_video ⟨false, "./uploads", "b"⟩ [] [] ⟨"movie.mp4", [7, 7]⟩).2.2.status
        ≠ 201 ∧
      (main_upload_video ⟨false, "./uploads", "b"⟩ [] [] ⟨"movie.mp4", [7, 7]⟩).2.2.status
        ≠ 500 := by
  decide

/-- C5 (amended): every upload request — whatever the input, configuration,
store and filesystem — is answered with status 400, the blanket
`except Exception` response; there is no 201 success path, no 500 path and
no input validation in `main.upload_video`. -/
theorem upload_always_returns_400
    (cfg : S3Config) (db : List VideoRow) (fs : FileSys) (file : UploadFileIn) :
    (main_upload_video cfg db fs file).2.2.status = 400 := by
  simp [main_upload_video, upload_to_s3_bytesObj]

/-- C6 (counterexample): for a concrete local put, the performed operation
sequence contains no rename at all, and the final destination path is opened
for writing directly — there is no temp-file-then-rename pattern. -/
theorem local_put_no_rename_for_clip :
    ((localPutOps "./uploads" "clip.mp4" [0,1,2]).any FsOp.isRenameOp) = false ∧
      FsOp.openWrite "./uploads/clip.mp4"
        ∈ localPutOps "./uploads" "clip.mp4" [0,1,2] := by
  decide

/-- C6 (amended): the local put opens the final destination
(`join(root, filename)`) directly and copies the stream into it — every
operation targets the final path and none is a rename — and a put that
returns leaves the content readable at the final path; on an I/O failure
nothing is cleaned up because no handler exists (the exception propagates). -/
theorem local_put_writes_final_path_directly
    (dir bucket fn k : String) (fs : FileSys) (c : PyBytes) :
    ((localPutOps dir fn c).any FsOp.isRenameOp) = false ∧
      ((localPutOps dir fn c).all
        (fun op => op.target == osPathJoin dir fn)) = true ∧
      upload_to_s3 ⟨false, dir, bucket⟩ fs (FileObj.named fn c) k
        = .ok (fsWrite fs (osPathJoin dir fn) c,
            ⟨"File uploaded locally", ⟨fn, c.length, osPathJoin dir fn⟩⟩) := by
  refine ⟨rfl, ?_, rfl⟩
  simp [localPutOps, FsOp.target]

/-- C7: the concrete scenario — a 10-byte `clip.mp4` uploaded with the
object store unavailable — is answered with status 400 and the raw
`AttributeError` text; nothing is written, no record is created, and the
status is not 201. -/
theorem clip_scenario_returns_400_not_201 :
    main_upload_video ⟨false, "./uploads", "b"⟩ [] []
        ⟨"clip.mp4", [0,1,2,3,4,5,6,7,8,9]⟩
      = ([], [], ⟨400, .messageObj "BytesIO object has no attribute filename"⟩) ∧
      (main_upload_video ⟨false, "./uploads", "b"⟩ [] []
        ⟨"clip.mp4", [0,1,2,3,4,5,6,7,8,9]⟩).2.2.status ≠ 201 := by
  decide

/-- C8: failing requests leak the raw underlying exception text into the
response body: `routes.upload_video` puts the database driver text verbatim
into the 500 detail (two different driver failures produce two different
bodies, so the body is not a function of the error class), and
`main.upload_video` answers with `str(e)` of the raised exception. -/
theorem route_error_body_contains_raw_driver_text :
    routes_upload_video (some 1)
        (.error "UniqueViolation duplicate key value violates unique constraint")
      = .httpError 500
          "UniqueViolation duplicate key value violates unique constraint" ∧
      routes_upload_video (some 1) (.error "connection refused")
        = .httpError 500 "connection refused" ∧
      ("UniqueViolation duplicate key value violates unique constraint" : String)
        ≠ "connection refused" ∧
      (main_upload_video ⟨false, "./uploads", "b"⟩ [] [] ⟨"v.mp4", [1]⟩).2.2.body
        = .messageObj (PyExc.attributeError "BytesIO" "filename").text := by
  decide

/-- C9: `GET /videos/999999` on an empty store does return 404, but when a
record exists the endpoint cannot return it: the `models.Video` row lacks
every field of `schemas.VideoResponse` except `id`, so response validation
fails and the request ends in a 500, not a 200. -/
theorem get_video_500_when_present_404_when_absent :
    main_get_video [] 999999 = ⟨404, .messageObj "Video not found"⟩ ∧
      main_get_video [⟨1, "Cat video", none, 0, none, 1⟩] 1
        = ⟨500, .messageObj "Internal Server Error"⟩ ∧
      (main_get_video [⟨1, "Cat video", none, 0, none, 1⟩] 1).status ≠ 200 := by
  decide

/-- C10: when s3 is disabled, the result of `upload_to_s3` does not depend on
the `file_key` argument in any way — the local branch derives the
destination, the written bytes and the returned metadata solely from the
file object. -/
theorem local_branch_result_independent_of_key
    (dir bucket : String) (fs : FileSys) (file : FileObj) (k1 k2 : String) :
    upload_to_s3 ⟨false, dir, bucket⟩ fs file k1
      = upload_to_s3 ⟨false, dir, bucket⟩ fs file k2 := rfl
